import Mathlib

/-!
Shallow embedding of klippy/extras/filasense.py (FilaSense filament
diameter sensor) and verification of its specification claims.

Python floats are modelled as rationals, Python ints as integers.
Python round() (banker's rounding, half to even) is modelled by pyRound.
Fallible operations (IndexError on an empty-list subscript,
ZeroDivisionError) are modelled with Option.
-/

namespace FilaSense

/-- Python round-half-to-even on a rational, returning an integer. -/
def pyRound (q : ℚ) : ℤ :=
  if q - ⌊q⌋ = 1/2 then (if 2 ∣ ⌊q⌋ then ⌊q⌋ else ⌊q⌋ + 1) else round q

/-- Python round(x, 2): round to two decimal places (filasense.py line 72). -/
def round2 (q : ℚ) : ℚ := (pyRound (q * 100) : ℚ) / 100

/-- Configuration options read in FilaSense.__init__ (lines 17-34).
The fields hold the resolved configuration values. -/
structure Config where
  diameter_1 : ℚ
  diameter_2 : ℚ
  raw_1 : ℤ
  raw_2 : ℤ
  measurement_interval : ℤ
  nominal_diameter : ℚ
  measurement_delay : ℚ
  max_difference : ℚ
  enabled : Bool
  runout_min_diameter : ℚ
  runout_max_diameter : ℚ
  logging : Bool
  use_current_diameter_while_delay : Bool
deriving DecidableEq, Repr

/-- Derived bound self.max_diameter = nominal_diameter + max_difference (line 26). -/
def max_diameter (cfg : Config) : ℚ := cfg.nominal_diameter + cfg.max_difference

/-- Derived bound self.min_diameter = nominal_diameter - max_difference (line 27). -/
def min_diameter (cfg : Config) : ℚ := cfg.nominal_diameter - cfg.max_difference

/-- Mutable runtime fields of a FilaSense instance: the FIFO of
(projected extruder position, diameter) pairs, the last raw sample, the
current calibrated diameter, and the enabled/logging flags. -/
structure State where
  fifo : List (ℚ × ℚ)
  raw : ℤ
  diameter : ℚ
  enabled : Bool
  logging : Bool
deriving DecidableEq, Repr

/-- State immediately after FilaSense.__init__: empty FIFO, raw = 0,
diameter = 0 (line 38 overwrites the earlier assignment of line 28),
flags from configuration. -/
def initState (cfg : Config) : State :=
  { fifo := [], raw := 0, diameter := 0,
    enabled := cfg.enabled, logging := cfg.logging }

/-- Startup validation performed by the config option reads in
FilaSense.__init__: nominal_diameter must be above 1.0 and
measurement_delay above 0.0 (lines 23-24); every other option, in
particular raw_1, raw_2 and measurement_interval, is accepted without
constraint. Returns none when the component fails to initialize. -/
def initFilaSense (cfg : Config) : Option State :=
  if 1 < cfg.nominal_diameter ∧ 0 < cfg.measurement_delay then
    some (initState cfg)
  else
    none

/-- Diameter estimator of FilaSense.adc_callback (line 72):
two-point linear interpolation from the integer raw sample, rounded to
two decimals. Returns none when raw_2 = raw_1 (ZeroDivisionError). -/
def adc_diameter (cfg : Config) (raw : ℤ) : Option ℚ :=
  if cfg.raw_2 - cfg.raw_1 = 0 then none
  else
    some (round2 ((cfg.diameter_2 - cfg.diameter_1) / ((cfg.raw_2 : ℚ) - (cfg.raw_1 : ℚ))
      * ((raw : ℚ) - (cfg.raw_1 : ℚ)) + cfg.diameter_1))

/-- FilaSense.adc_callback (lines 68-72): scale the reading by 10000 and
round to obtain the raw sample, then update raw and diameter. -/
def adc_callback (cfg : Config) (s : State) (read_value : ℚ) : Option State :=
  match adc_diameter cfg (pyRound (read_value * 10000)) with
  | none => none
  | some d => some { s with raw := pyRound (read_value * 10000), diameter := d }

/-- Enqueue step of FilaSense.timer_callback (lines 81-82): append
(epos_projected, diameter) at the FIFO tail if the FIFO is empty or the
measurement interval has passed since the tail entry. -/
def enqueueStep (cfg : Config) (fifo : List (ℚ × ℚ)) (epos_projected d : ℚ) :
    List (ℚ × ℚ) :=
  match fifo.getLast? with
  | none => fifo ++ [(epos_projected, d)]
  | some tl =>
      if tl.1 + (cfg.measurement_interval : ℚ) ≤ epos_projected then
        fifo ++ [(epos_projected, d)]
      else fifo

/-- Runout check of FilaSense.timer_callback (line 86):
runout_min_diameter <= diameter <= runout_max_diameter. -/
def isPresent (cfg : Config) (d : ℚ) : Bool :=
  decide (cfg.runout_min_diameter ≤ d) && decide (d ≤ cfg.runout_max_diameter)

/-- Dequeue-or-fallback step of FilaSense.timer_callback (lines 90-98):
pop the FIFO head when epos has reached its projected position, else
fall back to the live diameter or the nominal diameter. The subscript
self.fifo[0] raises IndexError on an empty FIFO, modelled by none. -/
def dequeueStep (cfg : Config) (currentDiameter epos : ℚ) (fifo : List (ℚ × ℚ)) :
    Option (List (ℚ × ℚ) × ℚ) :=
  match fifo with
  | [] => none
  | hd :: rest =>
      if hd.1 ≤ epos then some (rest, hd.2)
      else if cfg.use_current_diameter_while_delay then some (hd :: rest, currentDiameter)
      else some (hd :: rest, cfg.nominal_diameter)

/-- Observable effects of one timer tick: the filament-present flag sent
to the runout helper, the M221 multiplier percentage, and whether the
timer reschedules (eventtime + 1) or stops (NEVER). -/
structure TickOutput where
  filament_present : Bool
  multiplier : ℤ
  reschedule : Bool
deriving DecidableEq, Repr

/-- FilaSense.timer_callback (lines 75-112) at extruder position epos:
enqueue the current diameter at epos + measurement_delay; if filament is
present, resolve diameter_to_use via the dequeue step, override it with
nominal_diameter when out of [min_diameter, max_diameter], and emit
M221 with the squared-ratio multiplier; otherwise emit M221 S100 and
clear the FIFO. Returns none when the FIFO subscript fails, and also
when the resolved diameter_to_use is 0, where the division of line 103
raises ZeroDivisionError and nothing is emitted. -/
def timer_callback (cfg : Config) (s : State) (epos : ℚ) :
    Option (State × TickOutput) :=
  if isPresent cfg s.diameter then
    match dequeueStep cfg s.diameter epos
        (enqueueStep cfg s.fifo (epos + cfg.measurement_delay) s.diameter) with
    | none => none
    | some (fifo2, d0) =>
        if (if min_diameter cfg ≤ d0 ∧ d0 ≤ max_diameter cfg then d0
            else cfg.nominal_diameter) = 0 then none
        else
          some ({ s with fifo := fifo2 },
            { filament_present := true,
              multiplier := pyRound ((cfg.nominal_diameter /
                (if min_diameter cfg ≤ d0 ∧ d0 ≤ max_diameter cfg then d0
                 else cfg.nominal_diameter)) ^ 2 * 100),
              reschedule := s.enabled })
  else
    some ({ s with fifo := [] },
      { filament_present := false, multiplier := 100, reschedule := s.enabled })

/-- Folding maybe-enqueue attempts (projected position, diameter pairs)
over the FIFO, starting from a given queue. -/
def enqueueAll (cfg : Config) (fifo : List (ℚ × ℚ)) (attempts : List (ℚ × ℚ)) :
    List (ℚ × ℚ) :=
  attempts.foldl (fun f a => enqueueStep cfg f a.1 a.2) fifo

/-- Modelled from the spec: the external reactor scheduler (reactor.py is
not under src/). The spec's scheduler interface lets the controller
request an immediate tick, a tick after one time unit, or no further
tick; a registered timer starts with no tick scheduled (initial
controller state is Stopped). pending means a tick will fire. -/
inductive Sched where
  | never : Sched
  | pending : Sched
deriving DecidableEq, Repr

/-- Controller-level system state: the FilaSense instance fields together
with the scheduling status of its extrusion multiplier update timer. -/
structure Sys where
  fs : State
  sched : Sched
deriving DecidableEq, Repr

/-- System state after FilaSense.__init__: initial instance state with
the timer registered but not scheduled (reactor.register_timer, line 48). -/
def initSys (cfg : Config) : Sys :=
  { fs := initState cfg, sched := Sched.never }

/-- FilaSense.handle_ready (lines 62-65): on klippy:ready, schedule the
timer at reactor.NOW unconditionally, whatever the enabled flag. -/
def handle_ready (sys : Sys) : Sys :=
  { sys with sched := Sched.pending }

/-- Running one scheduled tick at extruder position epos: apply
timer_callback to the instance state; the returned waketime
(eventtime + 1 or reactor.NEVER, lines 109-112) decides whether another
tick is scheduled. -/
def runTick (cfg : Config) (sys : Sys) (epos : ℚ) : Option (Sys × TickOutput) :=
  match timer_callback cfg sys.fs epos with
  | none => none
  | some (s2, out) =>
      some ({ fs := s2,
              sched := if out.reschedule then Sched.pending else Sched.never },
        out)

/-- Acknowledgment texts of the enable/disable commands. -/
inductive Ack where
  | alreadyOn : Ack
  | turnedOn : Ack
  | alreadyOff : Ack
  | turnedOff : Ack
deriving DecidableEq, Repr

/-- Observable effects of a command: its acknowledgment and whether it
emitted an M221 S100 script. -/
structure CmdOutput where
  ack : Ack
  emitted100 : Bool
deriving DecidableEq, Repr

/-- FilaSense.cmd_ENABLE_FILAMENT_DIAMETER_SENSOR (lines 127-135): if
already enabled, acknowledge only; else set enabled and schedule an
immediate tick. -/
def cmd_ENABLE_FILAMENT_DIAMETER_SENSOR (sys : Sys) : Sys × CmdOutput :=
  if sys.fs.enabled then
    (sys, { ack := Ack.alreadyOn, emitted100 := false })
  else
    ({ fs := { sys.fs with enabled := true }, sched := Sched.pending },
     { ack := Ack.turnedOn, emitted100 := false })

/-- FilaSense.cmd_DISABLE_FILAMENT_DIAMETER_SENSOR (lines 137-149): if
already disabled, acknowledge only; else clear enabled, cancel future
ticks, clear the FIFO and emit M221 S100. -/
def cmd_DISABLE_FILAMENT_DIAMETER_SENSOR (sys : Sys) : Sys × CmdOutput :=
  if sys.fs.enabled then
    ({ fs := { sys.fs with enabled := false, fifo := [] }, sched := Sched.never },
     { ack := Ack.turnedOff, emitted100 := true })
  else
    (sys, { ack := Ack.alreadyOff, emitted100 := false })

/-- Example configuration used in concrete scenarios: the default
calibration anchors, nominal diameter 1.75, measurement delay 1,
max difference 0.3, runout bounds [1.0, 2.05], live-diameter fallback
enabled. -/
def exCfg : Config :=
  { diameter_1 := 3/2, diameter_2 := 2, raw_1 := 6250, raw_2 := 8750,
    measurement_interval := 10, nominal_diameter := 7/4, measurement_delay := 1,
    max_difference := 3/10, enabled := true, runout_min_diameter := 1,
    runout_max_diameter := 41/20, logging := false,
    use_current_diameter_while_delay := true }

/-- Example instance state with an empty FIFO and a live diameter
reading of 1.50. -/
def exState150 : State :=
  { fifo := [], raw := 7000, diameter := 3/2, enabled := true, logging := false }

/-- Example instance state with an empty FIFO and a live diameter
reading of 1.75. -/
def exState175 : State :=
  { fifo := [], raw := 7500, diameter := 7/4, enabled := true, logging := false }

/-- Example instance state with a live diameter reading of 1.20 (below
min_diameter of exCfg but inside its runout bounds). -/
def exState120 : State :=
  { fifo := [], raw := 4750, diameter := 6/5, enabled := true, logging := false }

/-- Example instance state with a non-empty FIFO and a live diameter
reading of 0 (filament absent for exCfg). -/
def exStateAbsent : State :=
  { fifo := [(5, 3/2), (20, 8/5)], raw := 0, diameter := 0,
    enabled := true, logging := false }

/-- Example configuration identical to exCfg but with enabled = false. -/
def offCfg : Config := { exCfg with enabled := false }

/-- Example configuration with coinciding calibration anchors
(raw_1 = raw_2 = 5000) and a non-positive measurement interval. -/
def badCfg : Config := { exCfg with raw_1 := 5000, raw_2 := 5000, measurement_interval := 0 }

/-- Example configuration whose first anchor diameter 1.504 is not a
two-decimal value. -/
def cexCfg : Config := { exCfg with diameter_1 := 188/125 }

/-- Example disabled system state. -/
def sysOff : Sys :=
  { fs := { fifo := [], raw := 0, diameter := 0, enabled := false, logging := false },
    sched := Sched.pending }

section Lemmas

/-- pyRound agrees with the integer on integer inputs. -/
lemma pyRound_intCast (n : ℤ) : pyRound (n : ℚ) = n := by
  unfold pyRound
  rw [Int.floor_intCast]
  have h : (n : ℚ) - n ≠ 1/2 := by norm_num
  simp [h, round_intCast]

/-- pyRound of a value strictly below the midpoint rounds down. -/
lemma pyRound_of_lt_half (q : ℚ) (n : ℤ) (h1 : (n : ℚ) ≤ q) (h2 : q < (n : ℚ) + 1/2) :
    pyRound q = n := by
  have hf : ⌊q⌋ = n := Int.floor_eq_iff.mpr ⟨h1, by linarith⟩
  have hne : q - (n : ℚ) ≠ 1/2 := by intro h; linarith [h]
  unfold pyRound
  rw [hf]
  simp only [hne, if_false, round_eq]
  exact Int.floor_eq_iff.mpr ⟨by linarith, by linarith⟩

/-- pyRound of a value strictly above the midpoint rounds up. -/
lemma pyRound_of_gt_half (q : ℚ) (n : ℤ) (h1 : (n : ℚ) + 1/2 < q) (h2 : q < (n : ℚ) + 1) :
    pyRound q = n + 1 := by
  have hf : ⌊q⌋ = n := Int.floor_eq_iff.mpr ⟨by linarith, by linarith⟩
  have hne : q - (n : ℚ) ≠ 1/2 := by intro h; linarith [h]
  unfold pyRound
  rw [hf]
  simp only [hne, if_false, round_eq]
  exact Int.floor_eq_iff.mpr ⟨by push_cast; linarith, by push_cast; linarith⟩

/-- pyRound fixes 100. -/
lemma pyRound_hundred : pyRound (100 : ℚ) = 100 := by
  have h := pyRound_intCast 100
  norm_num at h
  exact h

/-- The enqueue step never produces an empty FIFO. -/
lemma enqueueStep_ne_nil (cfg : Config) (fifo : List (ℚ × ℚ)) (p d : ℚ) :
    enqueueStep cfg fifo p d ≠ [] := by
  unfold enqueueStep
  cases h : fifo.getLast? with
  | none => simp
  | some tl =>
      have hne : fifo ≠ [] := by
        intro hnil
        rw [hnil] at h
        simp at h
      by_cases hc : tl.1 + (cfg.measurement_interval : ℚ) ≤ p
      · simp [hc]
      · simp [hc, hne]

/-- On a present tick whose resolved (and bounds-overridden) diameter is
non-zero, the division of line 103 is defined and the emitted multiplier
is the squared-ratio formula applied to that diameter. -/
lemma timer_callback_present_multiplier (cfg : Config) (s : State) (epos : ℚ)
    (fifo2 : List (ℚ × ℚ)) (d0 : ℚ)
    (hpres : isPresent cfg s.diameter = true)
    (hdeq : dequeueStep cfg s.diameter epos
      (enqueueStep cfg s.fifo (epos + cfg.measurement_delay) s.diameter) = some (fifo2, d0))
    (hne : (if min_diameter cfg ≤ d0 ∧ d0 ≤ max_diameter cfg then d0
            else cfg.nominal_diameter) ≠ 0) :
    timer_callback cfg s epos =
      some ({ s with fifo := fifo2 },
        { filament_present := true,
          multiplier := pyRound ((cfg.nominal_diameter /
            (if min_diameter cfg ≤ d0 ∧ d0 ≤ max_diameter cfg then d0
             else cfg.nominal_diameter)) ^ 2 * 100),
          reschedule := s.enabled }) := by
  unfold timer_callback
  rw [hpres, hdeq]
  simp [hne]

/-- The dequeue step succeeds on any non-empty FIFO. -/
lemma dequeueStep_ne_none (cfg : Config) (cd epos : ℚ) (fifo : List (ℚ × ℚ))
    (h : fifo ≠ []) : dequeueStep cfg cd epos fifo ≠ none := by
  cases fifo with
  | nil => exact absurd rfl h
  | cons hd rest =>
      unfold dequeueStep
      by_cases h1 : hd.1 ≤ epos
      · simp [h1]
      · by_cases h2 : cfg.use_current_diameter_while_delay <;> simp [h1, h2]

end Lemmas

/-- Claim C10: on every controller tick, the FIFO head accesses of the
dequeue step never operate on an empty queue: the enqueue step earlier
in the same tick appends whenever the FIFO is empty, so the FIFO handed
to the dequeue step is non-empty and the fifo[0] subscript of the
dequeue step never fails (the tick can still fail later, in the
division of line 103, but never at the head access). -/
theorem dequeue_head_never_empty (cfg : Config) (s : State) (epos : ℚ) :
    enqueueStep cfg s.fifo (epos + cfg.measurement_delay) s.diameter ≠ [] ∧
    dequeueStep cfg s.diameter epos
      (enqueueStep cfg s.fifo (epos + cfg.measurement_delay) s.diameter) ≠ none :=
  ⟨enqueueStep_ne_nil cfg s.fifo (epos + cfg.measurement_delay) s.diameter,
   dequeueStep_ne_none cfg s.diameter epos _
     (enqueueStep_ne_nil cfg s.fifo (epos + cfg.measurement_delay) s.diameter)⟩

/-- Claim C3: on a tick where the current diameter lies outside the
runout bounds, the tick emits multiplier 100 and leaves the FIFO empty,
whatever the FIFO held before. -/
theorem absent_tick_emits_100_and_clears (cfg : Config) (s : State) (epos : ℚ)
    (h : isPresent cfg s.diameter = false) :
    timer_callback cfg s epos =
      some ({ s with fifo := [] },
        { filament_present := false, multiplier := 100, reschedule := s.enabled }) := by
  unfold timer_callback
  rw [if_neg (by rw [h]; exact Bool.false_ne_true)]

/-- Witness for C3: with exCfg and a diameter reading of 0 the filament
is judged absent, and the tick on a two-entry FIFO empties it and emits
multiplier 100. -/
theorem absent_tick_emits_100_and_clears_witness :
    isPresent exCfg exStateAbsent.diameter = false ∧
    timer_callback exCfg exStateAbsent 0 =
      some ({ exStateAbsent with fifo := [] },
        { filament_present := false, multiplier := 100,
          reschedule := exStateAbsent.enabled }) :=
  ⟨by norm_num [isPresent, exCfg, exStateAbsent],
   absent_tick_emits_100_and_clears exCfg exStateAbsent 0
     (by norm_num [isPresent, exCfg, exStateAbsent])⟩

/-- Claim C4: enqueueing (p, d) into an empty delay queue and then
performing the dequeue step at extruder position epos = p pops the head
and yields exactly the enqueued diameter d, for any current live
diameter cd. -/
theorem enqueue_then_pop_roundtrip (cfg : Config) (cd p d : ℚ) :
    enqueueStep cfg [] p d = [(p, d)] ∧
    dequeueStep cfg cd p (enqueueStep cfg [] p d) = some ([], d) := by
  constructor
  · simp [enqueueStep]
  · simp [enqueueStep, dequeueStep]

/-- Claim C1: on a present-filament tick, if the resolved diameter_to_use
(popped head, live reading, or nominal fallback) lies outside
[min_diameter, max_diameter], nominal_diameter is substituted and the
emitted multiplier is exactly 100. -/
theorem out_of_bounds_fallback_emits_100 (cfg : Config) (s : State) (epos : ℚ)
    (fifo2 : List (ℚ × ℚ)) (d0 : ℚ)
    (hnom : 1 < cfg.nominal_diameter)
    (hpres : isPresent cfg s.diameter = true)
    (hdeq : dequeueStep cfg s.diameter epos
      (enqueueStep cfg s.fifo (epos + cfg.measurement_delay) s.diameter) = some (fifo2, d0))
    (hout : ¬ (min_diameter cfg ≤ d0 ∧ d0 ≤ max_diameter cfg)) :
    (timer_callback cfg s epos).map (fun p => p.2.multiplier) = some 100 := by
  have hne : cfg.nominal_diameter ≠ 0 := ne_of_gt (lt_trans zero_lt_one hnom)
  rw [timer_callback_present_multiplier cfg s epos fifo2 d0 hpres hdeq
    (by rw [if_neg hout]; exact hne)]
  simp [if_neg hout, div_self hne, pyRound_hundred]

/-- Witness for C1: with exCfg and a live diameter of 1.20 the filament
is present, the live reading is the resolved diameter, it lies below
min_diameter 1.45, and the emitted multiplier is 100. -/
theorem out_of_bounds_fallback_emits_100_witness :
    (1 < exCfg.nominal_diameter ∧
     isPresent exCfg exState120.diameter = true ∧
     dequeueStep exCfg exState120.diameter 0
       (enqueueStep exCfg exState120.fifo (0 + exCfg.measurement_delay)
         exState120.diameter) = some ([(1, 6/5)], 6/5) ∧
     ¬ (min_diameter exCfg ≤ (6/5 : ℚ) ∧ (6/5 : ℚ) ≤ max_diameter exCfg)) ∧
    (timer_callback exCfg exState120 0).map (fun p => p.2.multiplier) = some 100 :=
  ⟨⟨by norm_num [exCfg],
    by norm_num [isPresent, exCfg, exState120],
    by norm_num [dequeueStep, enqueueStep, exCfg, exState120, List.getLast?],
    by norm_num [min_diameter, max_diameter, exCfg]⟩,
   out_of_bounds_fallback_emits_100 exCfg exState120 0 [(1, 6/5)] (6/5)
     (by norm_num [exCfg])
     (by norm_num [isPresent, exCfg, exState120])
     (by norm_num [dequeueStep, enqueueStep, exCfg, exState120, List.getLast?])
     (by norm_num [min_diameter, max_diameter, exCfg])⟩

/-- Claim C6: on a present-filament tick whose resolved, bounds-overridden
diameter_to_use is non-zero (otherwise the division of line 103 raises
and nothing is emitted), the emitted multiplier equals
round((nominal_diameter / diameter_to_use)^2 * 100); in particular with
nominal 1.75 and diameter_to_use 1.50 the emitted multiplier is 136, and
with diameter_to_use 1.75 it is 100. -/
theorem present_tick_multiplier_formula (cfg : Config) (s : State) (epos : ℚ)
    (fifo2 : List (ℚ × ℚ)) (d0 : ℚ)
    (hpres : isPresent cfg s.diameter = true)
    (hdeq : dequeueStep cfg s.diameter epos
      (enqueueStep cfg s.fifo (epos + cfg.measurement_delay) s.diameter) = some (fifo2, d0))
    (hne : (if min_diameter cfg ≤ d0 ∧ d0 ≤ max_diameter cfg then d0
            else cfg.nominal_diameter) ≠ 0) :
    (timer_callback cfg s epos).map (fun p => p.2.multiplier) =
      some (pyRound ((cfg.nominal_diameter /
        (if min_diameter cfg ≤ d0 ∧ d0 ≤ max_diameter cfg then d0
         else cfg.nominal_diameter)) ^ 2 * 100)) ∧
    pyRound (((7 : ℚ)/4 / (3/2)) ^ 2 * 100) = 136 ∧
    (timer_callback exCfg exState150 0).map (fun p => p.2.multiplier) = some 136 ∧
    (timer_callback exCfg exState175 0).map (fun p => p.2.multiplier) = some 100 := by
  refine ⟨?_, ?_, ?_, ?_⟩
  · rw [timer_callback_present_multiplier cfg s epos fifo2 d0 hpres hdeq hne]
    simp
  · exact pyRound_of_lt_half _ 136 (by norm_num) (by norm_num)
  · norm_num [timer_callback, dequeueStep, enqueueStep, isPresent, min_diameter,
      max_diameter, exCfg, exState150, List.getLast?]
    exact pyRound_of_lt_half _ 136 (by norm_num) (by norm_num)
  · norm_num [timer_callback, dequeueStep, enqueueStep, isPresent, min_diameter,
      max_diameter, exCfg, exState175, List.getLast?, pyRound_hundred]

/-- Witness for C6: the formula instantiated on exCfg with a live
diameter of 1.50 and an empty queue at extruder position 0. -/
theorem present_tick_multiplier_formula_witness :
    (isPresent exCfg exState150.diameter = true ∧
     dequeueStep exCfg exState150.diameter 0
       (enqueueStep exCfg exState150.fifo (0 + exCfg.measurement_delay)
         exState150.diameter) = some ([(1, 3/2)], 3/2) ∧
     (if min_diameter exCfg ≤ (3/2 : ℚ) ∧ (3/2 : ℚ) ≤ max_diameter exCfg then (3/2 : ℚ)
      else exCfg.nominal_diameter) ≠ 0) ∧
    ((timer_callback exCfg exState150 0).map (fun p => p.2.multiplier) =
      some (pyRound ((exCfg.nominal_diameter /
        (if min_diameter exCfg ≤ (3/2 : ℚ) ∧ (3/2 : ℚ) ≤ max_diameter exCfg then (3/2 : ℚ)
         else exCfg.nominal_diameter)) ^ 2 * 100)) ∧
     pyRound (((7 : ℚ)/4 / (3/2)) ^ 2 * 100) = 136 ∧
     (timer_callback exCfg exState150 0).map (fun p => p.2.multiplier) = some 136 ∧
     (timer_callback exCfg exState175 0).map (fun p => p.2.multiplier) = some 100) :=
  ⟨⟨by norm_num [isPresent, exCfg, exState150],
    by norm_num [dequeueStep, enqueueStep, exCfg, exState150, List.getLast?],
    by norm_num [min_diameter, max_diameter, exCfg]⟩,
   present_tick_multiplier_formula exCfg exState150 0 [(1, 3/2)] (3/2)
     (by norm_num [isPresent, exCfg, exState150])
     (by norm_num [dequeueStep, enqueueStep, exCfg, exState150, List.getLast?])
     (by norm_num [min_diameter, max_diameter, exCfg])⟩

/-- The enqueue step preserves the spacing chain: consecutive FIFO
entries are at least measurement_interval apart. -/
lemma enqueueStep_chain (cfg : Config) (fifo : List (ℚ × ℚ)) (p d : ℚ)
    (h : List.Chain' (fun a b : ℚ × ℚ => a.1 + (cfg.measurement_interval : ℚ) ≤ b.1) fifo) :
    List.Chain' (fun a b : ℚ × ℚ => a.1 + (cfg.measurement_interval : ℚ) ≤ b.1)
      (enqueueStep cfg fifo p d) := by
  unfold enqueueStep
  cases hL : fifo.getLast? with
  | none =>
      have hnil : fifo = [] := List.getLast?_eq_none_iff.mp hL
      subst hnil
      simp
  | some tl =>
      by_cases hc : tl.1 + (cfg.measurement_interval : ℚ) ≤ p
      · simp only [if_pos hc]
        rw [List.chain'_append]
        refine ⟨h, List.chain'_singleton _, ?_⟩
        intro x hx y hy
        rw [hL] at hx
        simp only [Option.mem_def, Option.some_inj] at hx
        simp only [List.head?_cons, Option.mem_def, Option.some_inj] at hy
        subst hx
        subst hy
        exact hc
      · simp only [if_neg hc]
        exact h

/-- Folding any attempt sequence through the enqueue step preserves the
spacing chain. -/
lemma enqueueAll_chain (cfg : Config) (attempts fifo : List (ℚ × ℚ))
    (h : List.Chain' (fun a b : ℚ × ℚ => a.1 + (cfg.measurement_interval : ℚ) ≤ b.1) fifo) :
    List.Chain' (fun a b : ℚ × ℚ => a.1 + (cfg.measurement_interval : ℚ) ≤ b.1)
      (enqueueAll cfg fifo attempts) := by
  induction attempts generalizing fifo with
  | nil => simpa [enqueueAll] using h
  | cons a as ih =>
      simp only [enqueueAll, List.foldl_cons]
      exact ih _ (enqueueStep_chain cfg fifo a.1 a.2 h)

/-- Claim C2: for every sequence of maybe-enqueue attempts with
increasing projected positions, starting from an empty queue, every two
entries of the resulting queue (in order) are at least
measurement_interval apart, since an entry is appended only when the
queue is empty or the new position has reached tail + interval. -/
theorem enqueue_rate_limiting (cfg : Config) (attempts : List (ℚ × ℚ))
    (hival : 0 < cfg.measurement_interval)
    (_hmono : attempts.Pairwise (fun a b : ℚ × ℚ => a.1 < b.1)) :
    (enqueueAll cfg [] attempts).Pairwise
      (fun a b : ℚ × ℚ => a.1 + (cfg.measurement_interval : ℚ) ≤ b.1) := by
  have hq : (0 : ℚ) < (cfg.measurement_interval : ℚ) := by exact_mod_cast hival
  haveI : IsTrans (ℚ × ℚ) (fun a b : ℚ × ℚ => a.1 + (cfg.measurement_interval : ℚ) ≤ b.1) :=
    ⟨fun a b c hab hbc => by linarith⟩
  exact List.chain'_iff_pairwise.mp (enqueueAll_chain cfg attempts [] List.chain'_nil)

/-- Witness for C2: three attempts at projected positions 0, 5 and 12
with interval 10 yield the queue [(0, 1.5), (12, 1.6)], whose entries
are 12 >= 0 + 10 apart. -/
theorem enqueue_rate_limiting_witness :
    (0 < exCfg.measurement_interval ∧
     List.Pairwise (fun a b : ℚ × ℚ => a.1 < b.1)
       [((0 : ℚ), (3/2 : ℚ)), (5, 31/20), (12, 8/5)]) ∧
    (enqueueAll exCfg [] [((0 : ℚ), (3/2 : ℚ)), (5, 31/20), (12, 8/5)]).Pairwise
      (fun a b : ℚ × ℚ => a.1 + (exCfg.measurement_interval : ℚ) ≤ b.1) :=
  ⟨⟨by norm_num [exCfg], by norm_num⟩,
   enqueue_rate_limiting exCfg [((0 : ℚ), (3/2 : ℚ)), (5, 31/20), (12, 8/5)]
     (by norm_num [exCfg]) (by norm_num)⟩

/-- Counterexample for C5: for the calibration cexCfg, whose anchor
diameter_1 = 1.504 is not a two-decimal value, the estimator applied to
raw_1 yields 1.50, not diameter_1, although raw_1 and raw_2 differ. -/
theorem interpolation_exact_anchor_cex :
    cexCfg.raw_1 ≠ cexCfg.raw_2 ∧
    adc_diameter cexCfg cexCfg.raw_1 ≠ some cexCfg.diameter_1 := by
  constructor
  · norm_num [cexCfg, exCfg]
  · have h150 : pyRound ((752 : ℚ)/5) = 150 :=
      pyRound_of_lt_half _ 150 (by norm_num) (by norm_num)
    norm_num [adc_diameter, round2, cexCfg, exCfg]
    rw [h150]
    norm_num

/-- Claim C5 amended: for every calibration with raw_1 different from
raw_2, the estimator applied to raw_1 yields diameter_1 rounded to two
decimals, and applied to raw_2 yields diameter_2 rounded to two
decimals; exact anchor equality holds only when the anchors are
two-decimal values. -/
theorem interpolation_through_rounded_anchors (cfg : Config)
    (h : cfg.raw_1 ≠ cfg.raw_2) :
    adc_diameter cfg cfg.raw_1 = some (round2 cfg.diameter_1) ∧
    adc_diameter cfg cfg.raw_2 = some (round2 cfg.diameter_2) := by
  have hz : cfg.raw_2 - cfg.raw_1 ≠ 0 := sub_ne_zero.mpr (Ne.symm h)
  have hzq : (cfg.raw_2 : ℚ) - (cfg.raw_1 : ℚ) ≠ 0 := by
    intro h0
    apply hz
    have : (cfg.raw_2 : ℚ) = (cfg.raw_1 : ℚ) := by linarith
    have : cfg.raw_2 = cfg.raw_1 := by exact_mod_cast this
    omega
  unfold adc_diameter
  simp only [if_neg hz]
  constructor
  · have e1 : (cfg.diameter_2 - cfg.diameter_1) / ((cfg.raw_2 : ℚ) - (cfg.raw_1 : ℚ))
        * ((cfg.raw_1 : ℚ) - (cfg.raw_1 : ℚ)) + cfg.diameter_1 = cfg.diameter_1 := by
      rw [sub_self, mul_zero, zero_add]
    rw [e1]
  · have e2 : (cfg.diameter_2 - cfg.diameter_1) / ((cfg.raw_2 : ℚ) - (cfg.raw_1 : ℚ))
        * ((cfg.raw_2 : ℚ) - (cfg.raw_1 : ℚ)) + cfg.diameter_1 = cfg.diameter_2 := by
      rw [div_mul_cancel₀ _ hzq]
      ring
    rw [e2]

/-- Witness for C5 amended: on cexCfg the estimator maps raw_1 = 6250 to
round2(1.504) and raw_2 = 8750 to round2(2.0). -/
theorem interpolation_through_rounded_anchors_witness :
    cexCfg.raw_1 ≠ cexCfg.raw_2 ∧
    (adc_diameter cexCfg cexCfg.raw_1 = some (round2 cexCfg.diameter_1) ∧
     adc_diameter cexCfg cexCfg.raw_2 = some (round2 cexCfg.diameter_2)) :=
  ⟨by norm_num [cexCfg, exCfg],
   interpolation_through_rounded_anchors cexCfg (by norm_num [cexCfg, exCfg])⟩

/-- Counterexample for C8: the configuration badCfg has raw_2 = raw_1
and a non-positive measurement_interval, yet startup validation accepts
it and the component initializes. -/
theorem startup_validation_cex :
    badCfg.raw_2 = badCfg.raw_1 ∧
    badCfg.measurement_interval ≤ 0 ∧
    initFilaSense badCfg = some (initState badCfg) := by
  refine ⟨rfl, ?_, ?_⟩
  · norm_num [badCfg, exCfg]
  · norm_num [initFilaSense, badCfg, exCfg]

/-- Claim C8 amended: startup validation checks only that
nominal_diameter is above 1.0 and measurement_delay above 0.0; a
configuration with raw_2 = raw_1 (whatever its measurement_interval)
initializes successfully, and the division by zero then occurs at run
time inside the diameter estimator, whose computation fails on every
raw sample. -/
theorem startup_accepts_equal_anchors (cfg : Config) (r : ℤ)
    (hnom : 1 < cfg.nominal_diameter) (hdel : 0 < cfg.measurement_delay)
    (hraw : cfg.raw_2 = cfg.raw_1) :
    initFilaSense cfg = some (initState cfg) ∧ adc_diameter cfg r = none := by
  constructor
  · unfold initFilaSense
    rw [if_pos ⟨hnom, hdel⟩]
  · unfold adc_diameter
    rw [if_pos (by rw [hraw]; ring)]

/-- Witness for C8 amended: badCfg initializes and its estimator fails
at raw sample 7000. -/
theorem startup_accepts_equal_anchors_witness :
    (1 < badCfg.nominal_diameter ∧ 0 < badCfg.measurement_delay ∧
     badCfg.raw_2 = badCfg.raw_1) ∧
    (initFilaSense badCfg = some (initState badCfg) ∧
     adc_diameter badCfg 7000 = none) :=
  ⟨⟨by norm_num [badCfg, exCfg], by norm_num [badCfg, exCfg], rfl⟩,
   startup_accepts_equal_anchors badCfg 7000
     (by norm_num [badCfg, exCfg]) (by norm_num [badCfg, exCfg]) rfl⟩

/-- Claim C9: the disable command is idempotent: when enabled is already
false it produces only the no-op acknowledgment, leaves the state (flag
and queue) unchanged and emits nothing; a second disable in a row
therefore changes nothing. -/
theorem disable_idempotent (sys : Sys) (h : sys.fs.enabled = false) :
    cmd_DISABLE_FILAMENT_DIAMETER_SENSOR sys =
      (sys, { ack := Ack.alreadyOff, emitted100 := false }) ∧
    ∀ t : Sys,
      cmd_DISABLE_FILAMENT_DIAMETER_SENSOR (cmd_DISABLE_FILAMENT_DIAMETER_SENSOR t).1 =
        ((cmd_DISABLE_FILAMENT_DIAMETER_SENSOR t).1,
         { ack := Ack.alreadyOff, emitted100 := false }) := by
  constructor
  · unfold cmd_DISABLE_FILAMENT_DIAMETER_SENSOR
    rw [if_neg (by rw [h]; exact Bool.false_ne_true)]
  · intro t
    unfold cmd_DISABLE_FILAMENT_DIAMETER_SENSOR
    by_cases ht : t.fs.enabled = true
    · rw [if_pos ht]
      simp
    · rw [if_neg ht]
      rw [if_neg ht]

/-- Witness for C9: the disable command on the disabled system sysOff is
a no-op with the already-off acknowledgment, twice in a row. -/
theorem disable_idempotent_witness :
    sysOff.fs.enabled = false ∧
    (cmd_DISABLE_FILAMENT_DIAMETER_SENSOR sysOff =
      (sysOff, { ack := Ack.alreadyOff, emitted100 := false }) ∧
     ∀ t : Sys,
       cmd_DISABLE_FILAMENT_DIAMETER_SENSOR (cmd_DISABLE_FILAMENT_DIAMETER_SENSOR t).1 =
         ((cmd_DISABLE_FILAMENT_DIAMETER_SENSOR t).1,
          { ack := Ack.alreadyOff, emitted100 := false })) :=
  ⟨rfl, disable_idempotent sysOff rfl⟩

/-- Every tick returns waketime eventtime + 1 exactly when the enabled
flag is set, and reactor.NEVER otherwise. -/
lemma timer_callback_reschedule (cfg : Config) (s : State) (epos : ℚ)
    (s2 : State) (out : TickOutput)
    (h : timer_callback cfg s epos = some (s2, out)) :
    out.reschedule = s.enabled := by
  unfold timer_callback at h
  by_cases hp : isPresent cfg s.diameter = true
  · rw [if_pos hp] at h
    cases hd : dequeueStep cfg s.diameter epos
        (enqueueStep cfg s.fifo (epos + cfg.measurement_delay) s.diameter) with
    | none => rw [hd] at h; cases h
    | some pr =>
        rw [hd] at h
        obtain ⟨f2, d0⟩ := pr
        by_cases hz : (if min_diameter cfg ≤ d0 ∧ d0 ≤ max_diameter cfg then d0
            else cfg.nominal_diameter) = 0
        · simp only [if_pos hz] at h
          cases h
        · simp only [if_neg hz, Option.some_inj, Prod.mk.injEq] at h
          obtain ⟨h1, h2⟩ := h
          rw [← h2]
  · rw [if_neg hp] at h
    simp only [Option.some_inj, Prod.mk.injEq] at h
    obtain ⟨h1, h2⟩ := h
    rw [← h2]

/-- Counterexample for C7: with enabled configured false (offCfg), the
ready handler still schedules an immediate controller tick: the timer is
pending, not stopped, right after system-ready initialization. -/
theorem ready_schedules_tick_when_disabled_cex :
    offCfg.enabled = false ∧
    (initSys offCfg).fs.enabled = false ∧
    (handle_ready (initSys offCfg)).sched = Sched.pending ∧
    (handle_ready (initSys offCfg)).sched ≠ Sched.never := by
  refine ⟨rfl, rfl, rfl, ?_⟩
  intro h
  cases h

/-- Claim C7 amended: the controller starts Stopped (no tick scheduled
after initialization); at system-ready one tick is scheduled
unconditionally, even when enabled was configured false, and in that
case the tick requests no further tick, returning the controller to
Stopped after a single tick; the enable command schedules a tick when
the controller is disabled. -/
theorem controller_scheduling (cfg : Config) (sys : Sys) (epos : ℚ)
    (p : Sys × TickOutput)
    (hdis : sys.fs.enabled = false)
    (hrun : runTick cfg sys epos = some p) :
    (initSys cfg).sched = Sched.never ∧
    (handle_ready sys).sched = Sched.pending ∧
    p.1.sched = Sched.never ∧
    (cmd_ENABLE_FILAMENT_DIAMETER_SENSOR sys).1.sched = Sched.pending := by
  refine ⟨rfl, rfl, ?_, ?_⟩
  · unfold runTick at hrun
    cases htc : timer_callback cfg sys.fs epos with
    | none => rw [htc] at hrun; cases hrun
    | some q =>
        obtain ⟨s2, out⟩ := q
        have hres : out.reschedule = sys.fs.enabled :=
          timer_callback_reschedule cfg sys.fs epos s2 out htc
        rw [htc] at hrun
        simp only [Option.some_inj] at hrun
        rw [← hrun]
        simp only [hres, hdis]
        rfl
  · unfold cmd_ENABLE_FILAMENT_DIAMETER_SENSOR
    rw [if_neg (by rw [hdis]; exact Bool.false_ne_true)]

/-- Witness for C7 amended: the disabled system sysOff ticks once at
extruder position 0 and ends with no further tick scheduled. -/
theorem controller_scheduling_witness :
    (sysOff.fs.enabled = false ∧
     runTick offCfg sysOff 0 =
       some ({ fs := sysOff.fs, sched := Sched.never },
         { filament_present := false, multiplier := 100, reschedule := false })) ∧
    ((initSys offCfg).sched = Sched.never ∧
     (handle_ready sysOff).sched = Sched.pending ∧
     ({ fs := sysOff.fs, sched := Sched.never } : Sys).sched = Sched.never ∧
     (cmd_ENABLE_FILAMENT_DIAMETER_SENSOR sysOff).1.sched = Sched.pending) :=
  ⟨⟨rfl,
    by norm_num [runTick, timer_callback, isPresent, offCfg, exCfg, sysOff]⟩,
   controller_scheduling offCfg sysOff 0
     ({ fs := sysOff.fs, sched := Sched.never },
      { filament_present := false, multiplier := 100, reschedule := false })
     rfl
     (by norm_num [runTick, timer_callback, isPresent, offCfg, exCfg, sysOff])⟩

end FilaSense
